import Mathlib

/-!
Verification development for the starnavi_fastapi blogging backend.

The definitions below are a shallow embedding of the Python sources:

* `app/ai_tools.py`    — the AI moderation gate `moderate_content_with_ai`
  and the reply generator (modelled as an oracle function);
* `app/models.py`      — the `Post` / `Comment` records and their
  `validates` content checks (which raise `ValueError` on blank strings);
* `app/routers/tools.py`, `app/routers/posts.py`, `app/routers/comments.py`
  — the request handlers (create / list / get / update / delete) and the
  auto-reply scheduling helper;
* `app/tasks.py`       — the background auto-reply worker.

External collaborators (the generative-AI service, the task broker, the
relational engine) are modelled as oracle parameters or as explicit state:
the AI service is a function from attempt number to an optional response,
the broker is a list of scheduled tasks, and the database is a record of
post and comment lists with auto-increment counters.
-/

namespace StarNavi

/-! ### AI service data (google.generativeai response shape) -/

/-- One safety rating attached to a response candidate.  `category` and
`probability` are the integer enum values the client library exposes
(`HarmCategory`, `HarmProbability`). -/
structure SafetyRating where
  category : Nat
  probability : Nat
deriving DecidableEq, Repr

/-- One candidate of a generate-content response. -/
structure Candidate where
  safety_ratings : List SafetyRating
deriving DecidableEq, Repr

/-- A successful generate-content response: a list of candidates. -/
structure GenResponse where
  candidates : List Candidate
deriving DecidableEq, Repr

/-- The `safety_categories` dict of `moderate_content_with_ai`, including the
`.get(key, "UNKNOWN_CATEGORY")` default for unmapped categories. -/
def safety_categories (c : Nat) : String :=
  if c = 7 then "HARM_CATEGORY_HARASSMENT"
  else if c = 8 then "HARM_CATEGORY_HATE_SPEECH"
  else if c = 9 then "HARM_CATEGORY_SEXUALLY_EXPLICIT"
  else if c = 10 then "HARM_CATEGORY_DANGEROUS_CONTENT"
  else "UNKNOWN_CATEGORY"

/-- The inner `for rating in candidate.safety_ratings` loop: the first rating
with `rating.probability >= 2` returns its mapped category name. -/
def scanRatings : List SafetyRating → Option String
  | [] => none
  | r :: rest =>
    if 2 ≤ r.probability then some (safety_categories r.category)
    else scanRatings rest

/-- The `for candidate in response.candidates` loop of
`moderate_content_with_ai`.  In the source the loop body ends in an
unconditional `return False, ""` after the inner ratings loop, so the first
iteration always returns: only the first candidate is ever inspected.  An
empty candidate list takes the `else` branch of
`if hasattr(response, "candidates") and response.candidates`, which also
returns `(False, "")`. -/
def scanCandidates : List Candidate → Bool × String
  | [] => (false, "")
  | c :: _ =>
    match scanRatings c.safety_ratings with
    | some name => (true, name)
    | none => (false, "")

/-- State of the retry loop of `moderate_content_with_ai`: the `count`
variable, the `response` variable, and how many times `time.sleep(5)` ran. -/
structure RetryResult where
  count : Nat
  response : Option GenResponse
  sleeps : Nat
deriving DecidableEq, Repr

/-- The `while count <= 3 and not response` loop.  `attempt n` is the outcome
of the n-th call to `model.generate_content` (`none` models a raised
exception, which the source catches, prints and answers with a 5 s sleep). -/
def retry_loop (attempt : Nat → Option GenResponse) (count : Nat)
    (response : Option GenResponse) (sleeps : Nat) : RetryResult :=
  if h : count ≤ 3 ∧ response = none then
    match attempt (count + 1) with
    | some r => retry_loop attempt (count + 1) (some r) sleeps
    | none => retry_loop attempt (count + 1) none (sleeps + 1)
  else ⟨count, response, sleeps⟩
termination_by 4 - count
decreasing_by
  all_goals exact Nat.sub_lt_sub_left (Nat.lt_succ_of_le h.1) (Nat.lt_succ_self count)

/-- `moderate_content_with_ai` of `app/ai_tools.py`, as a function of the AI
oracle.  The text argument only shapes the prompt, never the control flow, so
it is not part of the model.  The function always returns a pair — every
service exception is caught inside the retry loop. -/
def moderate_content_with_ai (attempt : Nat → Option GenResponse) :
    Bool × String :=
  match (retry_loop attempt 0 none 0).response with
  | none => (true, "Error while AI text proceeds")
  | some resp => scanCandidates resp.candidates

/-- `moderate_content` of `app/routers/tools.py` for data with a `title`
attribute (posts): moderate the title first, return that verdict when it
blocks, otherwise moderate the content.  Each AI call gets its own oracle. -/
def moderate_content_post (attemptTitle attemptContent : Nat → Option GenResponse) :
    Bool × String :=
  let rt := moderate_content_with_ai attemptTitle
  if rt.1 then rt else moderate_content_with_ai attemptContent

/-- `moderate_content` of `app/routers/tools.py` for comment data (no `title`
attribute): a single moderation call on the content. -/
def moderate_content_comment (attemptContent : Nat → Option GenResponse) :
    Bool × String :=
  moderate_content_with_ai attemptContent

/-! ### Persistence records (app/models.py) -/

/-- The `Post` row.  `reply_delay` is a database `Integer` (default 0), so it
is modelled as `Int`. -/
structure PostRec where
  id : Nat
  title : String
  content : String
  author_id : Nat
  is_blocked : Bool
  block_reason : String
  auto_reply_enabled : Bool
  reply_delay : Int
deriving DecidableEq, Repr

/-- The `Comment` row.  `parent_id` is nullable. -/
structure CommentRec where
  id : Nat
  post_id : Nat
  parent_id : Option Nat
  content : String
  author_id : Nat
  is_blocked : Bool
  block_reason : String
deriving DecidableEq, Repr

/-- The authenticated user, as far as the handlers consult it. -/
structure UserRec where
  id : Nat
  is_superuser : Bool
deriving DecidableEq, Repr

/-- Database state: the two tables plus their auto-increment id counters. -/
structure DB where
  posts : List PostRec
  comments : List CommentRec
  next_post_id : Nat
  next_comment_id : Nat
deriving DecidableEq, Repr

/-- The failing condition of the `@validates` check of `app/models.py`:
`not value or value.strip() == ""`.  For a string, `not value` means
`value == ""`, and `value.strip() == ""` holds exactly when every character
is whitespace (true as well for the empty string), so the whole condition is
"all characters are whitespace", stated here character-wise. -/
def isBlank (value : String) : Bool :=
  value.data.all (fun ch => ch.isWhitespace)

/-- The `@validates` check of `app/models.py`: `ValueError` (with the Python
message) on a blank value. -/
def validate_non_empty_string (key : String) (value : String) :
    Except String String :=
  if isBlank value then Except.error (key ++ " cannot be an empty string.")
  else Except.ok value

/-- Constructing a `Post(...)`: the validators fire on `title` and `content`
in keyword order, raising `ValueError` on a blank value. -/
def mkPost (next_id : Nat) (title content : String) (author_id : Nat)
    (is_blocked : Bool) (block_reason : String) (auto_reply_enabled : Bool)
    (reply_delay : Int) : Except String PostRec :=
  match validate_non_empty_string "Title" title with
  | Except.error e => Except.error e
  | Except.ok _ =>
    match validate_non_empty_string "Content" content with
    | Except.error e => Except.error e
    | Except.ok _ =>
      Except.ok ⟨next_id, title, content, author_id, is_blocked, block_reason,
        auto_reply_enabled, reply_delay⟩

/-- Constructing a `Comment(...)`: the validator fires on `content`.
`is_blocked` and `block_reason` fall back to the column defaults
`False` / `""` when the constructor does not pass them. -/
def mkComment (next_id : Nat) (content : String) (post_id : Nat)
    (parent_id : Option Nat) (author_id : Nat) (is_blocked : Bool)
    (block_reason : String) : Except String CommentRec :=
  match validate_non_empty_string "Content" content with
  | Except.error e => Except.error e
  | Except.ok _ =>
    Except.ok ⟨next_id, post_id, parent_id, content, author_id, is_blocked,
      block_reason⟩

/-- `select(Post).where(Post.id == post_id)` followed by `.first()`. -/
def findPost (db : DB) (post_id : Nat) : Option PostRec :=
  db.posts.find? (fun p => p.id == post_id)

/-- `select(Comment).where(Comment.id == comment_id)` followed by `.first()`. -/
def findComment (db : DB) (comment_id : Nat) : Option CommentRec :=
  db.comments.find? (fun c => c.id == comment_id)

/-! ### Request-level outcomes -/

/-- How a request ends when it does not return a normal payload.  `http`
models a raised `HTTPException`; `valueError` models a Python `ValueError`
that no handler catches, which the framework surfaces as an internal server
error (500), not as a structured validation response. -/
inductive ReqError
  | http (code : Nat) (detail : String)
  | valueError (msg : String)
deriving DecidableEq, Repr

/-- A response body: the serialized object itself, or the
`JSONResponse(status_code=400)` blocked notice. -/
inductive ObjOut
  | post (p : PostRec)
  | comment (c : CommentRec)
  | blockedNotice (detail : String)
deriving DecidableEq, Repr

/-- The detail string of the blocked-notice `JSONResponse` built by
`check_blocked_obj_content` in `app/routers/tools.py`. -/
def blocked_detail (reason : String) : String :=
  "Content was blocked, reason - it contains inappropriate content: " ++ reason

/-- `check_blocked_obj_content` applied to a post. -/
def check_blocked_post (p : PostRec) : ObjOut :=
  if p.is_blocked then ObjOut.blockedNotice (blocked_detail p.block_reason)
  else ObjOut.post p

/-- `check_blocked_obj_content` applied to a comment. -/
def check_blocked_comment (c : CommentRec) : ObjOut :=
  if c.is_blocked then ObjOut.blockedNotice (blocked_detail c.block_reason)
  else ObjOut.comment c

/-! ### Comment creation (app/routers/tools.py, app/routers/comments.py) -/

/-- `create_new_comment` of `app/routers/tools.py`.  The `Comment(...)`
constructor runs BEFORE the `try` block, so a `ValueError` from the content
validator is not converted to HTTP 422 — it escapes the handler (the
`except ValueError` there only wraps `db.add/commit/refresh`, which do not
raise `ValueError`).  On success the new row is appended and the response is
`check_blocked_obj_content(new_comment)`. -/
def create_new_comment (db : DB) (content : String) (parent_id : Option Nat)
    (post_id : Nat) (current_user : UserRec) (is_blocked : Bool)
    (block_reason : String) : Except ReqError (DB × CommentRec × ObjOut) :=
  match mkComment db.next_comment_id content post_id parent_id current_user.id
      is_blocked block_reason with
  | Except.error msg => Except.error (ReqError.valueError msg)
  | Except.ok c =>
    Except.ok ({ db with comments := db.comments ++ [c],
                         next_comment_id := db.next_comment_id + 1 },
               c, check_blocked_comment c)

/-- A task handed to the broker:
`send_auto_reply.apply_async(args=[post.id, comment.id], countdown=...)`. -/
structure ScheduledTask where
  post_id : Nat
  comment_id : Nat
  countdown : Int
deriving DecidableEq, Repr

/-- `schedule_auto_reply_if_enabled` of `app/routers/tools.py`, returning the
list of tasks it enqueues (one or none). -/
def schedule_auto_reply_if_enabled (post : PostRec) (comment : CommentRec) :
    List ScheduledTask :=
  if post.auto_reply_enabled = true ∧ comment.is_blocked = false then
    [⟨post.id, comment.id, post.reply_delay * 10⟩]
  else []

/-- Everything a successful `POST /comments/{post_id}/create` produces. -/
structure CommentCreateResult where
  db : DB
  comment : CommentRec
  response : ObjOut
  tasks : List ScheduledTask
deriving DecidableEq, Repr

/-- The `check_parent_comment_blocked` step of `create_comment`, guarded by
Python truthiness of `comment.parent_id` (both `None` and `0` skip it). -/
def parent_comment_check (db : DB) (parent_id : Option Nat) :
    Except ReqError Unit :=
  match parent_id with
  | none => Except.ok ()
  | some pid =>
    if pid = 0 then Except.ok ()
    else
      match findComment db pid with
      | none => Except.error (ReqError.http 404 "Parent comment not found.")
      | some pc =>
        if pc.is_blocked then
          Except.error
            (ReqError.http 403 "You cannot create a comment for blocked content.")
        else Except.ok ()

/-- `create_comment` of `app/routers/comments.py`: look up the post (404),
refuse commenting on blocked content (403), check a blocked parent, create
the comment, then — only when the verdict is not blocked — run
`schedule_auto_reply_if_enabled`.  `is_blocked` / `block_reason` come in from
the `moderate_content` dependency. -/
def create_comment (db : DB) (post_id : Nat) (current_user : UserRec)
    (content : String) (parent_id : Option Nat) (is_blocked : Bool)
    (block_reason : String) : Except ReqError CommentCreateResult :=
  match findPost db post_id with
  | none => Except.error (ReqError.http 404 "Post not found")
  | some post =>
    if post.is_blocked then
      Except.error
        (ReqError.http 403 "You cannot create a comment for blocked content.")
    else
      match parent_comment_check db parent_id with
      | Except.error e => Except.error e
      | Except.ok _ =>
        match create_new_comment db content parent_id post_id current_user
            is_blocked block_reason with
        | Except.error e => Except.error e
        | Except.ok (db2, c, resp) =>
          let tasks :=
            if is_blocked = false then schedule_auto_reply_if_enabled post c
            else []
          Except.ok ⟨db2, c, resp, tasks⟩

/-! ### Post creation and listing (app/routers/tools.py, app/routers/posts.py) -/

/-- `create_new_post` of `app/routers/tools.py`.  Here the `Post(...)`
constructor IS inside the `try`, so a blank title/content becomes
HTTP 422 with the `ValueError` message as detail. -/
def create_new_post (db : DB) (title content : String)
    (auto_reply_enabled : Bool) (reply_delay : Int) (current_user : UserRec)
    (is_blocked : Bool) (block_reason : String) :
    Except ReqError (DB × PostRec × ObjOut) :=
  match mkPost db.next_post_id title content current_user.id is_blocked
      block_reason auto_reply_enabled reply_delay with
  | Except.error msg => Except.error (ReqError.http 422 msg)
  | Except.ok p =>
    Except.ok ({ db with posts := db.posts ++ [p],
                         next_post_id := db.next_post_id + 1 },
               p, check_blocked_post p)

/-- `list_posts` of `app/routers/posts.py`:
`select(Post).where(Post.is_blocked == False)`. -/
def list_posts (db : DB) : List PostRec :=
  db.posts.filter (fun p => p.is_blocked == false)

/-- `get_post` of `app/routers/posts.py`: the row itself, blocked or not. -/
def get_post (db : DB) (post_id : Nat) : Except ReqError PostRec :=
  match findPost db post_id with
  | none => Except.error (ReqError.http 404 "Post not found")
  | some p => Except.ok p

/-- `get_all_comments` of `app/routers/comments.py`:
`select(Comment).where(Comment.post_id == post_id)` — no block filter. -/
def get_all_comments (db : DB) (post_id : Nat) : List CommentRec :=
  db.comments.filter (fun c => c.post_id == post_id)

/-- `get_comment` of `app/routers/comments.py`: the row itself (serialized
through `CommentOut`, which includes the stored `content`), blocked or not. -/
def get_comment (db : DB) (comment_id : Nat) : Except ReqError CommentRec :=
  match findComment db comment_id with
  | none => Except.error (ReqError.http 404 "Comment not found")
  | some c => Except.ok c

/-! ### Updates (app/routers/posts.py, app/routers/comments.py) -/

/-- `PostUpdate.dict(exclude_unset=True)`: only the fields the client sent. -/
structure PostUpdateData where
  title : Option String
  content : Option String
  auto_reply_enabled : Option Bool
  reply_delay : Option Int
deriving DecidableEq, Repr

/-- `setattr(post, "title", value)` when the update sent a title: the
validator fires on assignment. -/
def applyTitle (p : PostRec) : Option String → Except String PostRec
  | none => Except.ok p
  | some t =>
    match validate_non_empty_string "Title" t with
    | Except.error e => Except.error e
    | Except.ok _ => Except.ok { p with title := t }

/-- `setattr(post, "content", value)` when the update sent a content. -/
def applyContent (p : PostRec) : Option String → Except String PostRec
  | none => Except.ok p
  | some s =>
    match validate_non_empty_string "Content" s with
    | Except.error e => Except.error e
    | Except.ok _ => Except.ok { p with content := s }

/-- The `setattr` loop of `update_post`, in field-declaration order; the
`title` / `content` validators can raise, which the surrounding `try` maps to
HTTP 422. -/
def apply_post_update (p : PostRec) (d : PostUpdateData) :
    Except String PostRec :=
  match applyTitle p d.title with
  | Except.error e => Except.error e
  | Except.ok p1 =>
    match applyContent p1 d.content with
    | Except.error e => Except.error e
    | Except.ok p2 =>
      let p3 := match d.auto_reply_enabled with
        | none => p2
        | some b => { p2 with auto_reply_enabled := b }
      Except.ok (match d.reply_delay with
        | none => p3
        | some n => { p3 with reply_delay := n })

/-- Replace the post row with the given id. -/
def storePost (db : DB) (post_id : Nat) (p : PostRec) : DB :=
  { db with posts := db.posts.map (fun q => if q.id == post_id then p else q) }

/-- Replace the comment row with the given id. -/
def storeComment (db : DB) (comment_id : Nat) (c : CommentRec) : DB :=
  { db with comments :=
      db.comments.map (fun q => if q.id == comment_id then c else q) }

/-- `update_post` of `app/routers/posts.py`: 404 when missing, 403 when not
the author, then `post.is_blocked`/`post.block_reason` are assigned the fresh
moderation verdict before the field `setattr` loop; a validator `ValueError`
is caught and becomes 422 (nothing committed). -/
def update_post (db : DB) (post_id : Nat) (current_user : UserRec)
    (d : PostUpdateData) (is_blocked : Bool) (block_reason : String) :
    Except ReqError (DB × PostRec × ObjOut) :=
  match findPost db post_id with
  | none => Except.error (ReqError.http 404 "Post not found")
  | some post =>
    if post.author_id ≠ current_user.id then
      Except.error (ReqError.http 403 "Not authorized to update this post")
    else
      match apply_post_update
          { post with is_blocked := is_blocked, block_reason := block_reason }
          d with
      | Except.error msg => Except.error (ReqError.http 422 msg)
      | Except.ok p2 =>
        Except.ok (storePost db post_id p2, p2, check_blocked_post p2)

/-- `update_comment` of `app/routers/comments.py`: 404 / 403 checks, then
`comment.content = updated_comment.content` (the validator fires here, and
`update_comment` has no `try`, so a blank new content raises an uncaught
`ValueError`), then the fresh verdict is assigned and committed. -/
def update_comment (db : DB) (comment_id : Nat) (current_user : UserRec)
    (new_content : String) (is_blocked : Bool) (block_reason : String) :
    Except ReqError (DB × CommentRec × ObjOut) :=
  match findComment db comment_id with
  | none => Except.error (ReqError.http 404 "Comment not found")
  | some comment =>
    if comment.author_id ≠ current_user.id then
      Except.error (ReqError.http 403 "Not authorized to update this comment")
    else
      match validate_non_empty_string "Content" new_content with
      | Except.error msg => Except.error (ReqError.valueError msg)
      | Except.ok _ =>
        let c2 := { comment with content := new_content,
                                 is_blocked := is_blocked,
                                 block_reason := block_reason }
        Except.ok (storeComment db comment_id c2, c2, check_blocked_comment c2)

/-! ### Deletion with reply cascade (app/models.py, app/routers/comments.py)

`Comment.replies` is declared with `cascade="all, delete-orphan"`, so
`db.delete(comment)` deletes the whole reply subtree recursively.  The
cascade is modelled as a membership test: a row is deleted when its
parent chain reaches the deleted id.  The chain walk is bounded by the
row's own id, which suffices on well-formed databases where every
parent id is strictly smaller than the child id (parents are created
first and ids auto-increment). -/

/-- `descendsIn comments fuel root cid`: walking `parent_id` upward from the
comment with id `cid` reaches `root` within `fuel` steps. -/
def descendsIn (comments : List CommentRec) : Nat → Nat → Nat → Bool
  | 0, root, cid => cid == root
  | fuel + 1, root, cid =>
    cid == root ||
      match comments.find? (fun c => c.id == cid) with
      | none => false
      | some c =>
        match c.parent_id with
        | none => false
        | some p => descendsIn comments fuel root p

/-- `delete_comment` of `app/routers/comments.py`: 404 when missing, 403 when
the caller is neither the author nor a superuser, otherwise remove the
comment together with its reply subtree (the ORM cascade). -/
def delete_comment (db : DB) (comment_id : Nat) (current_user : UserRec) :
    Except ReqError DB :=
  match findComment db comment_id with
  | none => Except.error (ReqError.http 404 "Comment not found")
  | some comment =>
    if comment.author_id ≠ current_user.id ∧ current_user.is_superuser = false
    then Except.error (ReqError.http 403 "Not authorized to delete this comment")
    else
      let kept := db.comments.filter
        (fun c => !(descendsIn db.comments c.id comment_id c.id))
      Except.ok { db with comments := kept }

/-- `delete_post` of `app/routers/posts.py` (no comment cascade is declared
on `Post.comments`; only the post row is removed). -/
def delete_post (db : DB) (post_id : Nat) (current_user : UserRec) :
    Except ReqError DB :=
  match findPost db post_id with
  | none => Except.error (ReqError.http 404 "Post not found")
  | some post =>
    if post.author_id ≠ current_user.id ∧ current_user.is_superuser = false
    then Except.error (ReqError.http 403 "Not authorized to delete this post")
    else
      let kept := db.posts.filter (fun p => !(p.id == post_id))
      Except.ok { db with posts := kept }

/-! ### The auto-reply worker (app/tasks.py) -/

/-- Possible outcomes of `_send_auto_reply_async`. -/
inductive WorkerResult
  /-- The reply comment was committed. -/
  | ok (db : DB) (reply : CommentRec)
  /-- `scalar_one()` raised `NoResultFound`: the `except` branch rolls back
  and prints; nothing is inserted and nothing is raised to the caller. -/
  | notFound (db : DB)
  /-- An exception other than `NoResultFound` escaped (the only such source
  in the body is the content validator of `Comment(...)`). -/
  | raised (db : DB) (msg : String)
deriving DecidableEq, Repr

/-- `_send_auto_reply_async` of `app/tasks.py`, with the reply-generation
collaborator `reply_gen` as an oracle.  The inserted comment is authored by
the post's author, parented on the triggering comment, and takes the column
defaults `is_blocked=False`, `block_reason=""` — no moderation call appears
anywhere in the worker. -/
def send_auto_reply (reply_gen : PostRec → CommentRec → String) (db : DB)
    (post_id comment_id : Nat) : WorkerResult :=
  match findPost db post_id with
  | none => WorkerResult.notFound db
  | some post =>
    match findComment db comment_id with
    | none => WorkerResult.notFound db
    | some comment =>
      let reply_content := reply_gen post comment
      match mkComment db.next_comment_id reply_content post.id
          (some comment.id) post.author_id false "" with
      | Except.error msg => WorkerResult.raised db msg
      | Except.ok rc =>
        WorkerResult.ok
          { db with comments := db.comments ++ [rc],
                    next_comment_id := db.next_comment_id + 1 } rc

/-! ### The reply tree, declaratively (for the cascade claim) -/

/-- One upward step in the reply tree: the stored comment with id `a` has
parent id `b`. -/
def ParentStep (comments : List CommentRec) (a b : Nat) : Prop :=
  ∃ c ∈ comments, c.id = a ∧ c.parent_id = some b

/-- `cid` lies in the subtree rooted at `root`: the reflexive-transitive
closure of `ParentStep` connects `cid` to `root`.  This is the "replies,
replies of replies, and so on" of the specification. -/
def InSubtree (comments : List CommentRec) (root cid : Nat) : Prop :=
  Relation.ReflTransGen (ParentStep comments) cid root

/-- Ids in the comment table are unique (primary keys). -/
abbrev UniqueIds (comments : List CommentRec) : Prop :=
  (comments.map (fun c => c.id)).Nodup

/-- Every stored parent id is strictly smaller than the child id: parents are
created before their replies and ids auto-increment. -/
def parentsEarlier (comments : List CommentRec) : Bool :=
  comments.all (fun c =>
    match c.parent_id with
    | none => true
    | some p => p < c.id)

/-! ### The blocked/reason invariant and the system step relation -/

/-- A blocked object always carries a non-empty reason. -/
abbrev ObjInv (is_blocked : Bool) (block_reason : String) : Prop :=
  is_blocked = true → block_reason ≠ ""

/-- The invariant over a whole database state. -/
abbrev DBInv (db : DB) : Prop :=
  (∀ p ∈ db.posts, ObjInv p.is_blocked p.block_reason) ∧
  (∀ c ∈ db.comments, ObjInv c.is_blocked c.block_reason)

/-- One observable write operation of the system, relating the database
before and after.  Creation and update steps receive their
`(is_blocked, block_reason)` pair from the `moderate_content` dependency,
exactly as the routers do; the worker step is a completed auto-reply task. -/
inductive Step : DB → DB → Prop
  | createPost (db : DB) (title content : String) (are : Bool) (rd : Int)
      (u : UserRec) (aT aC : Nat → Option GenResponse)
      (p : PostRec) (out : ObjOut) (db2 : DB) :
      create_new_post db title content are rd u
          (moderate_content_post aT aC).1 (moderate_content_post aT aC).2
        = Except.ok (db2, p, out) →
      Step db db2
  | createComment (db : DB) (post_id : Nat) (u : UserRec) (content : String)
      (parent_id : Option Nat) (aC : Nat → Option GenResponse)
      (r : CommentCreateResult) :
      create_comment db post_id u content parent_id
          (moderate_content_comment aC).1 (moderate_content_comment aC).2
        = Except.ok r →
      Step db r.db
  | updatePost (db : DB) (post_id : Nat) (u : UserRec) (d : PostUpdateData)
      (aT aC : Nat → Option GenResponse) (p : PostRec) (out : ObjOut)
      (db2 : DB) :
      update_post db post_id u d
          (moderate_content_post aT aC).1 (moderate_content_post aT aC).2
        = Except.ok (db2, p, out) →
      Step db db2
  | updateComment (db : DB) (comment_id : Nat) (u : UserRec)
      (new_content : String) (aC : Nat → Option GenResponse) (c : CommentRec)
      (out : ObjOut) (db2 : DB) :
      update_comment db comment_id u new_content
          (moderate_content_comment aC).1 (moderate_content_comment aC).2
        = Except.ok (db2, c, out) →
      Step db db2
  | autoReply (db : DB) (reply_gen : PostRec → CommentRec → String)
      (post_id comment_id : Nat) (db2 : DB) (rc : CommentRec) :
      send_auto_reply reply_gen db post_id comment_id
        = WorkerResult.ok db2 rc →
      Step db db2
  | deletePost (db : DB) (post_id : Nat) (u : UserRec) (db2 : DB) :
      delete_post db post_id u = Except.ok db2 → Step db db2
  | deleteComment (db : DB) (comment_id : Nat) (u : UserRec) (db2 : DB) :
      delete_comment db comment_id u = Except.ok db2 → Step db db2

/-! ### Concrete inputs used by counterexamples and witnesses -/

/-- An AI response with two candidates: the first is clean (no ratings), the
second carries a harassment rating at probability 3. -/
def respTwoCandidates : GenResponse := ⟨[⟨[]⟩, ⟨[⟨7, 3⟩]⟩]⟩

/-- An AI response with a single candidate flagged for hate speech at the
threshold probability 2. -/
def respHate : GenResponse := ⟨[⟨[⟨8, 2⟩]⟩]⟩

/-- An AI response with a single candidate and no ratings at the threshold. -/
def respClean : GenResponse := ⟨[⟨[⟨7, 1⟩]⟩]⟩

/-- A post by author 7 with auto-reply on and a delay of 3. -/
def pAuto : PostRec := ⟨1, "Title", "Post body", 7, false, "", true, 3⟩

/-- A first comment on `pAuto` by user 9. -/
def cFirst : CommentRec := ⟨1, 1, none, "First comment", 9, false, ""⟩

/-- A one-post, one-comment database. -/
def dbAuto : DB := ⟨[pAuto], [cFirst], 2, 2⟩

/-- A blocked comment as stored (content retained in the row). -/
def cBlocked : CommentRec :=
  ⟨1, 1, none, "offensive text kept in store", 7, true,
    "HARM_CATEGORY_HARASSMENT"⟩

/-- A blocked post. -/
def pBlocked : PostRec :=
  ⟨1, "Bad title", "Bad body", 7, true, "HARM_CATEGORY_HATE_SPEECH", false, 0⟩

/-- A database holding one unblocked post and one blocked comment. -/
def dbBlocked : DB :=
  ⟨[⟨1, "Title", "Post body", 7, false, "", false, 0⟩], [cBlocked], 2, 2⟩

/-- A comment tree on post 1: comment 1 ← reply 2 ← reply 3, and an
unrelated top-level comment 4; all by user 7. -/
def cTree1 : CommentRec := ⟨1, 1, none, "root", 7, false, ""⟩

/-- Reply to comment 1. -/
def cTree2 : CommentRec := ⟨2, 1, some 1, "reply", 7, false, ""⟩

/-- Reply to comment 2. -/
def cTree3 : CommentRec := ⟨3, 1, some 2, "reply of reply", 7, false, ""⟩

/-- A top-level comment with no replies. -/
def cTree4 : CommentRec := ⟨4, 1, none, "lonely", 7, false, ""⟩

/-- The tree database. -/
def dbTree : DB :=
  ⟨[⟨1, "Title", "Post body", 7, false, "", false, 0⟩],
   [cTree1, cTree2, cTree3, cTree4], 2, 5⟩

/-- The author of everything in the example databases. -/
def u7 : UserRec := ⟨7, false⟩

/-- The outcome of creating the unblocked comment "nice" on `dbAuto`. -/
def rNice : CommentCreateResult :=
  ⟨⟨[pAuto], [cFirst, ⟨2, 1, none, "nice", 7, false, ""⟩], 2, 3⟩,
   ⟨2, 1, none, "nice", 7, false, ""⟩,
   ObjOut.comment ⟨2, 1, none, "nice", 7, false, ""⟩,
   [⟨1, 2, 30⟩]⟩

/-- `dbTree` after deleting the leaf comment 3. -/
def dbTreeAfter3 : DB := ⟨dbTree.posts, [cTree1, cTree2, cTree4], 2, 5⟩

/-- `dbAuto` after the auto-reply worker inserted the reply "thanks". -/
def dbAutoAfterReply : DB :=
  ⟨[pAuto], [cFirst, ⟨2, 1, some 1, "thanks", 7, false, ""⟩], 2, 3⟩

/-- A database whose post and comment are both blocked. -/
def dbBoth : DB := ⟨[pBlocked], [cBlocked], 2, 2⟩

/-- The blocked post of `dbBoth` after an update whose fresh verdict passes. -/
def pUpdated : PostRec := ⟨1, "New title", "New body", 7, false, "", false, 0⟩

/-- The blocked comment of `dbBoth` after an update whose verdict passes. -/
def cUpdated : CommentRec := ⟨1, 1, none, "New comment", 7, false, ""⟩

/-- `dbBoth` after the post update. -/
def dbBothPostUpd : DB := ⟨[pUpdated], [cBlocked], 2, 2⟩

/-- `dbBoth` after the comment update. -/
def dbBothCommentUpd : DB := ⟨[pBlocked], [cUpdated], 2, 2⟩

end StarNavi

/-! ## Theorems -/

namespace StarNavi

/-! ### Retry-loop lemmas -/

/-- When every service call fails, the loop runs for counts 1..4 (the initial
attempt plus three retries), sleeping after each failure. -/
theorem retry_all_fail (attempt : Nat → Option GenResponse)
    (h : ∀ n, attempt n = none) :
    retry_loop attempt 0 none 0 = ⟨4, none, 4⟩ := by
  simp [retry_loop, h]

/-- When the first service call succeeds, the loop stops with its response. -/
theorem retry_first_success (attempt : Nat → Option GenResponse)
    (resp : GenResponse) (h : attempt 1 = some resp) :
    retry_loop attempt 0 none 0 = ⟨1, some resp, 0⟩ := by
  rw [retry_loop]
  simp only [h, Nat.zero_le, and_self, reduceDIte]
  rw [retry_loop]
  simp

/-- The attempt counter never passes 4: the guard `count <= 3` admits at most
the initial attempt and three retries. -/
theorem retry_count_le (attempt : Nat → Option GenResponse)
    (count : Nat) (response : Option GenResponse) (sleeps : Nat) :
    (retry_loop attempt count response sleeps).count ≤ max count 4 := by
  induction count, response, sleeps using retry_loop.induct attempt with
  | case1 count response sleeps h r hr ih =>
      rw [retry_loop]
      simp only [h, hr, and_self, reduceDIte]
      have h1 := h.1
      omega
  | case2 count response sleeps h hr ih =>
      rw [retry_loop]
      simp only [h, hr, and_self, reduceDIte]
      have h1 := h.1
      omega
  | case3 count response sleeps h =>
      rw [retry_loop]
      simp only [h, reduceDIte]
      omega

/-! ### Safety-rating scan lemmas -/

/-- No mapped category name, the unknown marker included, is empty. -/
theorem safety_categories_ne (c : Nat) : safety_categories c ≠ "" := by
  unfold safety_categories
  split_ifs <;> decide

/-- The inner ratings loop is the first rating at or above the threshold,
mapped through the category table. -/
theorem scanRatings_eq_find (rs : List SafetyRating) :
    scanRatings rs
      = (rs.find? (fun r => 2 ≤ r.probability)).map
          (fun r => safety_categories r.category) := by
  induction rs with
  | nil => rfl
  | cons r rest ih =>
      rw [scanRatings]
      by_cases h : 2 ≤ r.probability
      · simp [List.find?_cons, h]
      · simp [List.find?_cons, h, ih]

/-- A blocking verdict of the ratings loop comes from an actual rating at or
above the threshold. -/
theorem scanRatings_some_shape (rs : List SafetyRating) (name : String)
    (h : scanRatings rs = some name) :
    ∃ r ∈ rs, name = safety_categories r.category ∧ 2 ≤ r.probability := by
  induction rs with
  | nil => simp [scanRatings] at h
  | cons r rest ih =>
      rw [scanRatings] at h
      by_cases hp : 2 ≤ r.probability
      · rw [if_pos hp] at h
        injection h with h2
        exact ⟨r, by simp, h2.symm, hp⟩
      · rw [if_neg hp] at h
        obtain ⟨r2, hr2, hn, hp2⟩ := ih h
        exact ⟨r2, by simp [hr2], hn, hp2⟩

/-- A blocking verdict of the candidates loop carries a non-empty reason. -/
theorem scanCandidates_reason (cs : List Candidate)
    (h : (scanCandidates cs).1 = true) : (scanCandidates cs).2 ≠ "" := by
  cases cs with
  | nil => simp [scanCandidates] at h
  | cons c rest =>
      rw [scanCandidates] at h ⊢
      cases hs : scanRatings c.safety_ratings with
      | none => rw [hs] at h; simp at h
      | some name =>
          obtain ⟨r, _, hn, _⟩ := scanRatings_some_shape c.safety_ratings name hs
          simpa [hn] using safety_categories_ne r.category

/-- Whatever the AI service does, a blocking gate verdict carries a non-empty
reason. -/
theorem moderate_blocked_reason_nonempty (attempt : Nat → Option GenResponse)
    (h : (moderate_content_with_ai attempt).1 = true) :
    (moderate_content_with_ai attempt).2 ≠ "" := by
  unfold moderate_content_with_ai at h ⊢
  cases hres : (retry_loop attempt 0 none 0).response with
  | none => decide
  | some resp =>
      rw [hres] at h
      exact scanCandidates_reason resp.candidates h

/-- The post moderation pipeline (title, then content) inherits the
non-empty-reason property. -/
theorem moderate_post_reason_nonempty (aT aC : Nat → Option GenResponse)
    (h : (moderate_content_post aT aC).1 = true) :
    (moderate_content_post aT aC).2 ≠ "" := by
  unfold moderate_content_post at h ⊢
  by_cases ht : (moderate_content_with_ai aT).1 = true
  · rw [if_pos ht] at h ⊢
    exact moderate_blocked_reason_nonempty aT h
  · rw [if_neg (by simpa using ht)] at h ⊢
    exact moderate_blocked_reason_nonempty aC h

/-- The comment moderation pipeline inherits the non-empty-reason property. -/
theorem moderate_comment_reason_nonempty (aC : Nat → Option GenResponse)
    (h : (moderate_content_comment aC).1 = true) :
    (moderate_content_comment aC).2 ≠ "" :=
  moderate_blocked_reason_nonempty aC h

/-! ### Claim C1 — the success path of the moderation gate -/

/-- Claim C1, counterexample: the claim says the gate inspects the safety
ratings of EACH candidate and blocks when any rating of any candidate reaches
tier 2.  In `respTwoCandidates` the second candidate carries a harassment
rating at probability 3, yet the gate answers `(false, "")`: the source's
`return False, ""` sits inside the candidate loop, so only the first
candidate is ever examined. -/
theorem moderation_ignores_second_candidate :
    (∃ c ∈ respTwoCandidates.candidates, ∃ r ∈ c.safety_ratings,
        2 ≤ r.probability)
    ∧ moderate_content_with_ai (fun _ => some respTwoCandidates)
        = (false, "") := by
  constructor
  · exact ⟨⟨[⟨7, 3⟩]⟩, by simp [respTwoCandidates], ⟨7, 3⟩, by simp,
      by norm_num⟩
  · unfold moderate_content_with_ai
    rw [retry_first_success (fun _ => some respTwoCandidates)
      respTwoCandidates rfl]
    simp [respTwoCandidates, scanCandidates, scanRatings]

/-- Claim C1 (amended): on a successful AI call the gate inspects only the
FIRST candidate of the response.  It returns `blocked=true` with the mapped
category name (or UNKNOWN_CATEGORY) of that candidate's first safety rating
at probability tier 2 or above; it returns `(false, "")` when the first
candidate has no such rating or when the response has no candidates at all.
Ratings of candidates after the first are never examined. -/
theorem moderation_success_first_candidate_only
    (attempt : Nat → Option GenResponse) (resp : GenResponse)
    (h : attempt 1 = some resp) :
    moderate_content_with_ai attempt
      = match resp.candidates.head? with
        | none => (false, "")
        | some c =>
          match c.safety_ratings.find? (fun r => 2 ≤ r.probability) with
          | none => (false, "")
          | some r => (true, safety_categories r.category) := by
  unfold moderate_content_with_ai
  rw [retry_first_success attempt resp h]
  show scanCandidates resp.candidates = _
  cases hc : resp.candidates with
  | nil => simp [scanCandidates]
  | cons c rest =>
      rw [scanCandidates, scanRatings_eq_find]
      cases hf : c.safety_ratings.find? (fun r => 2 ≤ r.probability) with
      | none => simp [hf]
      | some r => simp [hf]

/-- Witness for the amended C1 theorem at a concrete response flagged for
hate speech at the threshold tier. -/
theorem moderation_success_first_candidate_only_witness :
    moderate_content_with_ai (fun _ => some respHate)
      = (true, "HARM_CATEGORY_HATE_SPEECH") := by
  have h := moderation_success_first_candidate_only
      (fun _ => some respHate) respHate rfl
  rw [h]
  decide

/-! ### Claim C2 — fail-closed retry behaviour -/

/-- Claim C2: when every attempt to reach the AI service fails, the gate
makes the initial attempt plus exactly 3 retries (the attempt counter ends at
4, and for every oracle it never passes 4), sleeps after each failed attempt,
and returns the fail-closed verdict `(true, "Error while AI text proceeds")`.
The embedding is a total function into verdict pairs — the source catches
every service exception inside the loop, so no error reaches the caller. -/
theorem moderation_fail_closed (attempt : Nat → Option GenResponse)
    (h : ∀ n, attempt n = none) :
    moderate_content_with_ai attempt = (true, "Error while AI text proceeds")
    ∧ (retry_loop attempt 0 none 0).count = 4
    ∧ (retry_loop attempt 0 none 0).sleeps = 4
    ∧ ∀ g : Nat → Option GenResponse,
        (retry_loop g 0 none 0).count ≤ 4 := by
  refine ⟨?_, ?_, ?_, ?_⟩
  · unfold moderate_content_with_ai
    rw [retry_all_fail attempt h]
  · rw [retry_all_fail attempt h]
  · rw [retry_all_fail attempt h]
  · intro g
    simpa using retry_count_le g 0 none 0

/-- Witness for C2 with the always-failing oracle. -/
theorem moderation_fail_closed_witness :
    moderate_content_with_ai (fun _ => none)
      = (true, "Error while AI text proceeds")
    ∧ (retry_loop (fun _ => none) 0 none 0).count = 4 := by
  have h := moderation_fail_closed (fun _ => none) (fun _ => rfl)
  exact ⟨h.1, h.2.1⟩

/-! ### Inversion lemmas for the write operations -/

/-- A successfully constructed comment is exactly the record the constructor
was handed, and its content is not blank. -/
theorem mkComment_ok_shape (nid : Nat) (content : String) (pid : Nat)
    (par : Option Nat) (aid : Nat) (vb : Bool) (vr : String) (c : CommentRec)
    (h : mkComment nid content pid par aid vb vr = Except.ok c) :
    c = ⟨nid, pid, par, content, aid, vb, vr⟩ ∧ isBlank content = false := by
  unfold mkComment validate_non_empty_string at h
  by_cases hb : isBlank content = true
  · simp [hb] at h
  · rw [Bool.not_eq_true] at hb
    simp [hb] at h
    exact ⟨h.symm, hb⟩

/-- A successfully constructed post is the record the constructor was handed,
and neither title nor content is blank. -/
theorem mkPost_ok_shape (nid : Nat) (title content : String) (aid : Nat)
    (vb : Bool) (vr : String) (are : Bool) (rd : Int) (p : PostRec)
    (h : mkPost nid title content aid vb vr are rd = Except.ok p) :
    p = ⟨nid, title, content, aid, vb, vr, are, rd⟩
    ∧ isBlank title = false ∧ isBlank content = false := by
  unfold mkPost validate_non_empty_string at h
  by_cases ht : isBlank title = true
  · simp [ht] at h
  · rw [Bool.not_eq_true] at ht
    by_cases hc : isBlank content = true
    · simp [ht, hc] at h
    · rw [Bool.not_eq_true] at hc
      simp [ht, hc] at h
      exact ⟨h.symm, ht, hc⟩

/-- What a successful `create_new_comment` produces. -/
theorem create_new_comment_ok_shape (db : DB) (content : String)
    (par : Option Nat) (pid : Nat) (u : UserRec) (vb : Bool) (vr : String)
    (db2 : DB) (c : CommentRec) (out : ObjOut)
    (h : create_new_comment db content par pid u vb vr
        = Except.ok (db2, c, out)) :
    c = ⟨db.next_comment_id, pid, par, content, u.id, vb, vr⟩
    ∧ db2.posts = db.posts ∧ db2.comments = db.comments ++ [c]
    ∧ out = check_blocked_comment c := by
  unfold create_new_comment at h
  cases hmk : mkComment db.next_comment_id content pid par u.id vb vr with
  | error e => rw [hmk] at h; cases h
  | ok c0 =>
      rw [hmk] at h
      obtain ⟨hc0, _⟩ := mkComment_ok_shape _ _ _ _ _ _ _ _ hmk
      simp only [Except.ok.injEq, Prod.mk.injEq] at h
      obtain ⟨hdb, hc, hout⟩ := h
      subst hdb hc hout hc0
      exact ⟨rfl, rfl, rfl, rfl⟩

/-- What a successful `create_new_post` produces. -/
theorem create_new_post_ok_shape (db : DB) (title content : String)
    (are : Bool) (rd : Int) (u : UserRec) (vb : Bool) (vr : String)
    (db2 : DB) (p : PostRec) (out : ObjOut)
    (h : create_new_post db title content are rd u vb vr
        = Except.ok (db2, p, out)) :
    p = ⟨db.next_post_id, title, content, u.id, vb, vr, are, rd⟩
    ∧ db2.comments = db.comments ∧ db2.posts = db.posts ++ [p]
    ∧ out = check_blocked_post p := by
  unfold create_new_post at h
  cases hmk : mkPost db.next_post_id title content u.id vb vr are rd with
  | error e => rw [hmk] at h; cases h
  | ok p0 =>
      rw [hmk] at h
      obtain ⟨hp0, _, _⟩ := mkPost_ok_shape _ _ _ _ _ _ _ _ _ hmk
      simp only [Except.ok.injEq, Prod.mk.injEq] at h
      obtain ⟨hdb, hp, hout⟩ := h
      subst hdb hp hout hp0
      exact ⟨rfl, rfl, rfl, rfl⟩

/-- What a successful `POST /comments/{post_id}/create` produces: the post
exists and is not blocked, exactly one comment row is appended carrying the
moderation verdict, and the task list is the auto-reply schedule guarded by
the verdict. -/
theorem create_comment_ok_shape (db : DB) (pid : Nat) (u : UserRec)
    (content : String) (par : Option Nat) (vb : Bool) (vr : String)
    (r : CommentCreateResult)
    (h : create_comment db pid u content par vb vr = Except.ok r) :
    ∃ post, findPost db pid = some post ∧ post.is_blocked = false
    ∧ r.comment = ⟨db.next_comment_id, pid, par, content, u.id, vb, vr⟩
    ∧ r.db.posts = db.posts ∧ r.db.comments = db.comments ++ [r.comment]
    ∧ r.response = check_blocked_comment r.comment
    ∧ r.tasks = (if vb = false
        then schedule_auto_reply_if_enabled post r.comment else []) := by
  unfold create_comment at h
  cases hp : findPost db pid with
  | none => rw [hp] at h; cases h
  | some post =>
      simp only [hp] at h
      by_cases hb : post.is_blocked = true
      · rw [if_pos hb] at h; cases h
      · rw [if_neg hb] at h
        cases hpc : parent_comment_check db par with
        | error e => rw [hpc] at h; cases h
        | ok un =>
            simp only [hpc] at h
            cases hcc : create_new_comment db content par pid u vb vr with
            | error e => rw [hcc] at h; cases h
            | ok res =>
                obtain ⟨db2, c, resp⟩ := res
                simp only [hcc] at h
                obtain ⟨hc, hposts, hcoms, hresp⟩ :=
                  create_new_comment_ok_shape db content par pid u vb vr
                    db2 c resp hcc
                injection h with h1
                subst h1
                exact ⟨post, rfl, Bool.not_eq_true post.is_blocked ▸ hb,
                  hc, hposts, hcoms, hresp, rfl⟩

/-- `applyTitle` never touches the block fields. -/
theorem applyTitle_block (p : PostRec) (t : Option String) (q : PostRec)
    (h : applyTitle p t = Except.ok q) :
    q.is_blocked = p.is_blocked ∧ q.block_reason = p.block_reason := by
  cases t with
  | none =>
      unfold applyTitle at h
      injection h with h1
      subst h1; exact ⟨rfl, rfl⟩
  | some s =>
      unfold applyTitle validate_non_empty_string at h
      by_cases hb : isBlank s = true
      · simp [hb] at h
      · rw [Bool.not_eq_true] at hb
        simp only [hb, Bool.false_eq_true, if_false, Except.ok.injEq] at h
        subst h; exact ⟨rfl, rfl⟩

/-- `applyContent` never touches the block fields. -/
theorem applyContent_block (p : PostRec) (t : Option String) (q : PostRec)
    (h : applyContent p t = Except.ok q) :
    q.is_blocked = p.is_blocked ∧ q.block_reason = p.block_reason := by
  cases t with
  | none =>
      unfold applyContent at h
      injection h with h1
      subst h1; exact ⟨rfl, rfl⟩
  | some s =>
      unfold applyContent validate_non_empty_string at h
      by_cases hb : isBlank s = true
      · simp [hb] at h
      · rw [Bool.not_eq_true] at hb
        simp only [hb, Bool.false_eq_true, if_false, Except.ok.injEq] at h
        subst h; exact ⟨rfl, rfl⟩

/-- The whole `setattr` loop never touches the block fields. -/
theorem apply_post_update_block (p : PostRec) (d : PostUpdateData)
    (q : PostRec) (h : apply_post_update p d = Except.ok q) :
    q.is_blocked = p.is_blocked ∧ q.block_reason = p.block_reason := by
  obtain ⟨dt, dc, da, dr⟩ := d
  unfold apply_post_update at h
  dsimp only at h
  cases h1 : applyTitle p dt with
  | error e => rw [h1] at h; cases h
  | ok p1 =>
      simp only [h1] at h
      cases h2 : applyContent p1 dc with
      | error e => rw [h2] at h; cases h
      | ok p2 =>
          simp only [h2] at h
          obtain ⟨e1, e2⟩ := applyTitle_block p dt p1 h1
          obtain ⟨e3, e4⟩ := applyContent_block p1 dc p2 h2
          cases da <;> cases dr <;>
            (simp only [Except.ok.injEq] at h; subst h; simp_all)

/-- What a successful `update_post` produces: the stored row carries the
fresh verdict, only the posts table changes, and the row replaces the one
with the requested id. -/
theorem update_post_ok_shape (db : DB) (pid : Nat) (u : UserRec)
    (d : PostUpdateData) (vb : Bool) (vr : String) (db2 : DB) (p2 : PostRec)
    (out : ObjOut)
    (h : update_post db pid u d vb vr = Except.ok (db2, p2, out)) :
    p2.is_blocked = vb ∧ p2.block_reason = vr
    ∧ db2 = storePost db pid p2 ∧ db2.comments = db.comments
    ∧ out = check_blocked_post p2
    ∧ ∃ post, findPost db pid = some post ∧ post.author_id = u.id := by
  unfold update_post at h
  cases hp : findPost db pid with
  | none => rw [hp] at h; cases h
  | some post =>
      simp only [hp] at h
      by_cases ha : post.author_id ≠ u.id
      · rw [if_pos ha] at h; cases h
      · rw [if_neg ha] at h
        cases hap : apply_post_update
            { post with is_blocked := vb, block_reason := vr } d with
        | error e => rw [hap] at h; cases h
        | ok q =>
            simp only [hap] at h
            obtain ⟨e1, e2⟩ := apply_post_update_block _ _ _ hap
            simp only [Except.ok.injEq, Prod.mk.injEq] at h
            obtain ⟨h1, h2, h3⟩ := h
            subst h1 h2 h3
            push_neg at ha
            exact ⟨by simpa using e1, by simpa using e2, rfl, rfl, rfl,
              post, rfl, ha⟩

/-- What a successful `update_comment` produces. -/
theorem update_comment_ok_shape (db : DB) (cid : Nat) (u : UserRec)
    (nc : String) (vb : Bool) (vr : String) (db2 : DB) (c2 : CommentRec)
    (out : ObjOut)
    (h : update_comment db cid u nc vb vr = Except.ok (db2, c2, out)) :
    c2.is_blocked = vb ∧ c2.block_reason = vr ∧ c2.content = nc
    ∧ db2 = storeComment db cid c2 ∧ db2.posts = db.posts
    ∧ out = check_blocked_comment c2
    ∧ ∃ comment, findComment db cid = some comment
        ∧ comment.author_id = u.id
        ∧ c2 = { comment with content := nc, is_blocked := vb,
                              block_reason := vr } := by
  unfold update_comment validate_non_empty_string at h
  cases hc : findComment db cid with
  | none => rw [hc] at h; cases h
  | some comment =>
      simp only [hc] at h
      by_cases ha : comment.author_id ≠ u.id
      · rw [if_pos ha] at h; cases h
      · rw [if_neg ha] at h
        by_cases hb : isBlank nc = true
        · simp [hb] at h
        · rw [Bool.not_eq_true] at hb
          simp only [hb, Bool.false_eq_true, if_false, Except.ok.injEq,
            Prod.mk.injEq] at h
          obtain ⟨h1, h2, h3⟩ := h
          subst h1 h2 h3
          push_neg at ha
          exact ⟨rfl, rfl, rfl, rfl, rfl, rfl, comment, rfl, ha, rfl⟩

/-- What a completed auto-reply task produces: both rows exist, the reply is
non-blank, and exactly one unmoderated reply comment is appended. -/
theorem send_auto_reply_ok_shape (g : PostRec → CommentRec → String) (db : DB)
    (pid cid : Nat) (db2 : DB) (rc : CommentRec)
    (h : send_auto_reply g db pid cid = WorkerResult.ok db2 rc) :
    ∃ post comment, findPost db pid = some post
    ∧ findComment db cid = some comment
    ∧ rc = ⟨db.next_comment_id, post.id, some comment.id, g post comment,
            post.author_id, false, ""⟩
    ∧ isBlank (g post comment) = false
    ∧ db2.posts = db.posts ∧ db2.comments = db.comments ++ [rc] := by
  unfold send_auto_reply at h
  cases hp : findPost db pid with
  | none => rw [hp] at h; cases h
  | some post =>
      simp only [hp] at h
      cases hc : findComment db cid with
      | none => rw [hc] at h; cases h
      | some comment =>
          simp only [hc] at h
          cases hmk : mkComment db.next_comment_id (g post comment) post.id
              (some comment.id) post.author_id false "" with
          | error e => rw [hmk] at h; cases h
          | ok c0 =>
              simp only [hmk] at h
              obtain ⟨hc0, hnb⟩ := mkComment_ok_shape _ _ _ _ _ _ _ _ hmk
              injection h with h1 h2
              subst h1 h2 hc0
              exact ⟨post, comment, rfl, rfl, rfl, hnb, rfl, rfl⟩

/-- What a successful `delete_comment` produces: the comments table is
filtered by subtree membership, everything else untouched. -/
theorem delete_comment_ok_shape (db : DB) (cid : Nat) (u : UserRec) (db2 : DB)
    (h : delete_comment db cid u = Except.ok db2) :
    db2.posts = db.posts
    ∧ db2.comments = db.comments.filter
        (fun c => !(descendsIn db.comments c.id cid c.id))
    ∧ ∃ comment, findComment db cid = some comment := by
  unfold delete_comment at h
  cases hc : findComment db cid with
  | none => rw [hc] at h; cases h
  | some comment =>
      simp only [hc] at h
      by_cases ha : comment.author_id ≠ u.id ∧ u.is_superuser = false
      · rw [if_pos ha] at h; cases h
      · rw [if_neg ha] at h
        injection h with h1
        subst h1
        exact ⟨rfl, rfl, comment, rfl⟩

/-- What a successful `delete_post` produces. -/
theorem delete_post_ok_shape (db : DB) (pid : Nat) (u : UserRec) (db2 : DB)
    (h : delete_post db pid u = Except.ok db2) :
    db2.comments = db.comments
    ∧ db2.posts = db.posts.filter (fun p => !(p.id == pid)) := by
  unfold delete_post at h
  cases hp : findPost db pid with
  | none => rw [hp] at h; cases h
  | some post =>
      simp only [hp] at h
      by_cases ha : post.author_id ≠ u.id ∧ u.is_superuser = false
      · rw [if_pos ha] at h; cases h
      · rw [if_neg ha] at h
        injection h with h1
        subst h1
        exact ⟨rfl, rfl⟩

/-! ### Lookup and store lemmas -/

/-- A found post is a stored row with the requested id. -/
theorem findPost_mem (db : DB) (pid : Nat) (post : PostRec)
    (h : findPost db pid = some post) : post ∈ db.posts ∧ post.id = pid := by
  unfold findPost at h
  exact ⟨List.mem_of_find?_eq_some h, by simpa using List.find?_some h⟩

/-- A found comment is a stored row with the requested id. -/
theorem findComment_mem (db : DB) (cid : Nat) (c : CommentRec)
    (h : findComment db cid = some c) : c ∈ db.comments ∧ c.id = cid := by
  unfold findComment at h
  exact ⟨List.mem_of_find?_eq_some h, by simpa using List.find?_some h⟩

/-- After `storePost`, the new row is stored (the replaced slot exists). -/
theorem storePost_mem_self (db : DB) (pid : Nat) (p2 : PostRec)
    (post : PostRec) (h : findPost db pid = some post) :
    p2 ∈ (storePost db pid p2).posts := by
  obtain ⟨hmem, hid⟩ := findPost_mem db pid post h
  unfold storePost
  exact List.mem_map.mpr ⟨post, hmem, by simp [hid]⟩

/-- After `storeComment`, the new row is stored. -/
theorem storeComment_mem_self (db : DB) (cid : Nat) (c2 : CommentRec)
    (c : CommentRec) (h : findComment db cid = some c) :
    c2 ∈ (storeComment db cid c2).comments := by
  obtain ⟨hmem, hid⟩ := findComment_mem db cid c h
  unfold storeComment
  exact List.mem_map.mpr ⟨c, hmem, by simp [hid]⟩

/-- A row of the updated posts table is an old row or the stored one. -/
theorem storePost_mem_cases (db : DB) (pid : Nat) (p2 q : PostRec)
    (h : q ∈ (storePost db pid p2).posts) : q ∈ db.posts ∨ q = p2 := by
  unfold storePost at h
  obtain ⟨a, ha, hf⟩ := List.mem_map.mp h
  by_cases hid : (a.id == pid) = true
  · rw [if_pos hid] at hf
    right; exact hf.symm
  · rw [if_neg hid] at hf
    left; exact hf ▸ ha

/-- A row of the updated comments table is an old row or the stored one. -/
theorem storeComment_mem_cases (db : DB) (cid : Nat) (c2 q : CommentRec)
    (h : q ∈ (storeComment db cid c2).comments) :
    q ∈ db.comments ∨ q = c2 := by
  unfold storeComment at h
  obtain ⟨a, ha, hf⟩ := List.mem_map.mp h
  by_cases hid : (a.id == cid) = true
  · rw [if_pos hid] at hf
    right; exact hf.symm
  · rw [if_neg hid] at hf
    left; exact hf ▸ ha

/-! ### Claim C3 — auto-reply scheduling on comment creation -/

/-- Claim C3: for every comment creation request that succeeds, an auto-reply
task is enqueued iff the created comment is not blocked and the post has
auto-reply enabled; any enqueued task carries the post id and the new
comment's id, with countdown `reply_delay * 10`.  (Requests that fail return
an error and thus enqueue nothing.) -/
theorem auto_reply_scheduling (db : DB) (pid : Nat) (u : UserRec)
    (content : String) (par : Option Nat) (vb : Bool) (vr : String)
    (r : CommentCreateResult)
    (h : create_comment db pid u content par vb vr = Except.ok r) :
    ∃ post, findPost db pid = some post
    ∧ ((∃ t, t ∈ r.tasks)
        ↔ (r.comment.is_blocked = false ∧ post.auto_reply_enabled = true))
    ∧ ∀ t ∈ r.tasks, t.post_id = post.id ∧ t.comment_id = r.comment.id
        ∧ t.countdown = post.reply_delay * 10 := by
  obtain ⟨post, hp, hnb, hc, _, _, _, htasks⟩ :=
    create_comment_ok_shape db pid u content par vb vr r h
  refine ⟨post, hp, ?_, ?_⟩
  · rw [htasks]
    cases hvb : vb <;> cases hare : post.auto_reply_enabled <;>
      simp [schedule_auto_reply_if_enabled, hc, hare, hvb]
  · intro t ht
    rw [htasks] at ht
    by_cases hvb : vb = false
    · rw [if_pos hvb] at ht
      unfold schedule_auto_reply_if_enabled at ht
      by_cases hcond : post.auto_reply_enabled = true
          ∧ r.comment.is_blocked = false
      · rw [if_pos hcond] at ht
        have := List.mem_singleton.mp ht
        subst this
        exact ⟨rfl, rfl, rfl⟩
      · rw [if_neg hcond] at ht
        cases ht
    · rw [if_neg hvb] at ht
      cases ht

/-- Witness for C3: the concrete creation of "nice" on `dbAuto` (auto-reply
enabled, delay 3) enqueues one task with countdown 30. -/
theorem auto_reply_scheduling_witness :
    ∃ post, findPost dbAuto 1 = some post
    ∧ ((∃ t, t ∈ rNice.tasks)
        ↔ (rNice.comment.is_blocked = false
            ∧ post.auto_reply_enabled = true))
    ∧ ∀ t ∈ rNice.tasks, t.post_id = post.id
        ∧ t.comment_id = rNice.comment.id
        ∧ t.countdown = post.reply_delay * 10 :=
  auto_reply_scheduling dbAuto 1 u7 "nice" none false "" rNice rfl

/-! ### Claim C4 — the auto-reply worker -/

/-- Claim C4, counterexample: with both the post and the comment present but
the reply generator returning an empty string, the worker does NOT insert a
comment — the content validator of `Comment(...)` raises a `ValueError` that
the worker's `except NoResultFound` does not catch, so the exception
escapes.  The claim's "otherwise it inserts exactly one new Comment" is
therefore false as stated. -/
theorem auto_reply_blank_reply_raises :
    findPost dbAuto 1 = some pAuto
    ∧ findComment dbAuto 1 = some cFirst
    ∧ send_auto_reply (fun _ _ => "") dbAuto 1 1
        = WorkerResult.raised dbAuto "Content cannot be an empty string." :=
  ⟨rfl, rfl, rfl⟩

/-- Claim C4 (amended): when the post or the comment is missing the worker
rolls back and logs — the database is unchanged and nothing is raised; when
both exist and the generated reply is not blank, it inserts exactly one new
comment authored by the post's author, on the post, parented on the
triggering comment, with the generated reply as content and the unmoderated
column defaults `is_blocked = false`, `block_reason = ""` — the moderation
gate is never consulted.  (A blank generated reply instead raises an
uncaught `ValueError` from the content validator; see the counterexample.) -/
theorem auto_reply_worker_behavior (g : PostRec → CommentRec → String)
    (db : DB) (pid cid : Nat) :
    ((findPost db pid = none ∨ findComment db cid = none) →
      send_auto_reply g db pid cid = WorkerResult.notFound db)
    ∧ (∀ post comment, findPost db pid = some post →
        findComment db cid = some comment →
        isBlank (g post comment) = false →
        send_auto_reply g db pid cid
          = WorkerResult.ok
              ⟨db.posts,
               db.comments ++
                 [⟨db.next_comment_id, post.id, some comment.id,
                   g post comment, post.author_id, false, ""⟩],
               db.next_post_id, db.next_comment_id + 1⟩
              ⟨db.next_comment_id, post.id, some comment.id, g post comment,
                post.author_id, false, ""⟩) := by
  constructor
  · intro hmiss
    unfold send_auto_reply
    cases hp : findPost db pid with
    | none => rfl
    | some post =>
        simp only [hp]
        cases hc : findComment db cid with
        | none => rfl
        | some comment =>
            rcases hmiss with hm | hm
            · rw [hp] at hm; cases hm
            · rw [hc] at hm; cases hm
  · intro post comment hp hc hnb
    unfold send_auto_reply
    simp only [hp, hc]
    unfold mkComment validate_non_empty_string
    simp only [hnb, Bool.false_eq_true, if_false]

/-- Witness for the amended C4 theorem: a concrete successful reply
insertion on `dbAuto` and a concrete missing-comment no-op. -/
theorem auto_reply_worker_behavior_witness :
    send_auto_reply (fun _ _ => "thanks") dbAuto 1 1
      = WorkerResult.ok dbAutoAfterReply ⟨2, 1, some 1, "thanks", 7, false, ""⟩
    ∧ send_auto_reply (fun _ _ => "thanks") dbAuto 1 99
      = WorkerResult.notFound dbAuto := by
  constructor
  · exact (auto_reply_worker_behavior (fun _ _ => "thanks") dbAuto 1 1).2
      pAuto cFirst rfl rfl rfl
  · exact (auto_reply_worker_behavior (fun _ _ => "thanks") dbAuto 1 99).1
      (Or.inr rfl)

/-! ### Claim C10 — updates overwrite the block state -/

/-- Claim C10: a successful update of a post or a comment stores the fresh
moderation verdict for the newly submitted content — overwriting whatever
block state the row had — and the stored row is the returned one; in
particular a passing verdict `(false, "")` unblocks a previously blocked
object, whatever its previous state was. -/
theorem update_overwrites_verdict
    (db : DB) (pid cid : Nat) (u : UserRec) (d : PostUpdateData)
    (nc : String) (vb wb : Bool) (vr wr : String)
    (dbp : DB) (p2 : PostRec) (outp : ObjOut)
    (dbc : DB) (c2 : CommentRec) (outc : ObjOut)
    (hp : update_post db pid u d vb vr = Except.ok (dbp, p2, outp))
    (hc : update_comment db cid u nc wb wr = Except.ok (dbc, c2, outc)) :
    p2.is_blocked = vb ∧ p2.block_reason = vr ∧ p2 ∈ dbp.posts
    ∧ c2.is_blocked = wb ∧ c2.block_reason = wr ∧ c2.content = nc
    ∧ c2 ∈ dbc.comments := by
  obtain ⟨e1, e2, e3, _, _, post, hfp, _⟩ :=
    update_post_ok_shape db pid u d vb vr dbp p2 outp hp
  obtain ⟨f1, f2, f3, f4, _, _, comment, hfc, _, _⟩ :=
    update_comment_ok_shape db cid u nc wb wr dbc c2 outc hc
  refine ⟨e1, e2, ?_, f1, f2, f3, ?_⟩
  · rw [e3]
    exact storePost_mem_self db pid p2 post hfp
  · rw [f4]
    exact storeComment_mem_self db cid c2 comment hfc

/-- Witness for C10: updating the blocked post and the blocked comment of
`dbBoth` with a passing verdict `(false, "")` unblocks both stored rows. -/
theorem update_overwrites_verdict_witness :
    pBlocked.is_blocked = true ∧ cBlocked.is_blocked = true
    ∧ (pUpdated.is_blocked = false ∧ pUpdated.block_reason = ""
        ∧ pUpdated ∈ dbBothPostUpd.posts
        ∧ cUpdated.is_blocked = false ∧ cUpdated.block_reason = ""
        ∧ cUpdated.content = "New comment"
        ∧ cUpdated ∈ dbBothCommentUpd.comments) :=
  ⟨rfl, rfl,
   update_overwrites_verdict dbBoth 1 1 u7
     ⟨some "New title", some "New body", none, none⟩ "New comment"
     false false "" "" dbBothPostUpd pUpdated (ObjOut.post pUpdated)
     dbBothCommentUpd cUpdated (ObjOut.comment cUpdated) rfl rfl⟩

/-! ### Claim C6 — blank title/content on creation -/

/-- Claim C6 (code bug on the comment path): a whitespace-only comment
content makes `create_comment` fail with an uncaught `ValueError` — the
framework turns that into a 500, not the claimed 422 — because the
`Comment(...)` constructor runs before the `try` whose `except ValueError`
was meant to produce the 422.  The post path does produce 422, for both a
blank title and a blank content, since there the constructor sits inside the
`try`.  No row is stored in any of the three cases (the returned state is an
error, so no commit happens). -/
theorem empty_content_validation_paths :
    create_comment dbAuto 1 u7 " " none false ""
      = Except.error (ReqError.valueError "Content cannot be an empty string.")
    ∧ create_new_post dbAuto "" "body" false 0 u7 false ""
      = Except.error (ReqError.http 422 "Title cannot be an empty string.")
    ∧ create_new_post dbAuto "Title" " " false 0 u7 false ""
      = Except.error (ReqError.http 422 "Content cannot be an empty string.") :=
  ⟨rfl, rfl, rfl⟩

/-! ### Claim C7 — blocked content on direct retrieval -/

/-- Claim C7, counterexample: the claim says the response to a fetch of a
blocked object contains the block reason, not the stored content.  But
`GET /comments/{id}` returns the stored row unchanged: fetching the blocked
comment of `dbBlocked` yields its full stored content. -/
theorem blocked_fetch_returns_content :
    cBlocked.is_blocked = true
    ∧ get_comment dbBlocked 1 = Except.ok cBlocked
    ∧ cBlocked.content = "offensive text kept in store"
    ∧ cBlocked.block_reason = "HARM_CATEGORY_HARASSMENT" :=
  ⟨rfl, rfl, rfl, rfl⟩

/-- Claim C7 (amended): content withholding happens on the response path of
create/update — `check_blocked_obj_content` turns a blocked object into a
400 notice carrying the block reason and no content — while a direct GET by
id returns the stored row itself, content included, blocked or not. -/
theorem blocked_withholding_on_write_response (p : PostRec) (c : CommentRec)
    (db : DB) (cid : Nat) (hp : p.is_blocked = true) (hc : c.is_blocked = true)
    (hg : get_comment db cid = Except.ok c) :
    check_blocked_post p = ObjOut.blockedNotice (blocked_detail p.block_reason)
    ∧ check_blocked_comment c
        = ObjOut.blockedNotice (blocked_detail c.block_reason)
    ∧ c ∈ db.comments := by
  refine ⟨by simp [check_blocked_post, hp], by simp [check_blocked_comment, hc], ?_⟩
  unfold get_comment at hg
  cases hf : findComment db cid with
  | none => rw [hf] at hg; cases hg
  | some c2 =>
      simp only [hf, Except.ok.injEq] at hg
      subst hg
      exact (findComment_mem db cid c2 hf).1

/-- Witness for the amended C7 theorem on the concrete blocked rows. -/
theorem blocked_withholding_witness :
    check_blocked_comment cBlocked
      = ObjOut.blockedNotice (blocked_detail cBlocked.block_reason)
    ∧ cBlocked ∈ dbBlocked.comments := by
  have h :=
    blocked_withholding_on_write_response pBlocked cBlocked dbBlocked 1
      rfl rfl rfl
  exact ⟨h.2.1, h.2.2⟩

/-! ### Claim C5 — cascading deletion of the reply subtree -/

/-- In a well-formed table the stored parent id is smaller than the child
id. -/
theorem parentsEarlier_lt (comments : List CommentRec)
    (hpe : parentsEarlier comments = true) (c : CommentRec)
    (hc : c ∈ comments) (p : Nat) (hp : c.parent_id = some p) : p < c.id := by
  unfold parentsEarlier at hpe
  have hall := List.all_eq_true.mp hpe c hc
  rw [hp] at hall
  simpa using hall

/-- With unique ids, `find?` by id returns precisely the stored row. -/
theorem find?_unique_id (comments : List CommentRec) (a : Nat)
    (rec : CommentRec) (hu : UniqueIds comments) (hm : rec ∈ comments)
    (hid : rec.id = a) :
    comments.find? (fun c => c.id == a) = some rec := by
  induction comments with
  | nil => cases hm
  | cons x rest ih =>
      rw [UniqueIds, List.map_cons, List.nodup_cons] at hu
      obtain ⟨hx, hrest⟩ := hu
      rcases List.mem_cons.mp hm with hm1 | hm2
      · subst hm1
        rw [List.find?_cons]
        simp [hid]
      · have hxa : (x.id == a) = false := by
          simp only [beq_eq_false_iff_ne, ne_eq]
          intro hcontra
          apply hx
          rw [hcontra, ← hid]
          exact List.mem_map_of_mem (fun c => c.id) hm2
        rw [List.find?_cons, hxa]
        exact ih hrest hm2

/-- Soundness of the upward walk: if `descendsIn` answers true then the
comment really lies in the subtree. -/
theorem descendsIn_sound (comments : List CommentRec) (fuel root cid : Nat)
    (h : descendsIn comments fuel root cid = true) :
    InSubtree comments root cid := by
  induction fuel generalizing cid with
  | zero =>
      unfold descendsIn at h
      have hcr : cid = root := by simpa using h
      subst hcr
      exact Relation.ReflTransGen.refl
  | succ fuel ih =>
      unfold descendsIn at h
      rw [Bool.or_eq_true] at h
      rcases h with h1 | h2
      · have hcr : cid = root := by simpa using h1
        subst hcr
        exact Relation.ReflTransGen.refl
      · cases hf : comments.find? (fun c => c.id == cid) with
        | none => rw [hf] at h2; cases h2
        | some c =>
            simp only [hf] at h2
            cases hpar : c.parent_id with
            | none => rw [hpar] at h2; cases h2
            | some p =>
                simp only [hpar] at h2
                have hcm : c ∈ comments := List.mem_of_find?_eq_some hf
                have hcid : c.id = cid := by simpa using List.find?_some hf
                exact Relation.ReflTransGen.head ⟨c, hcm, hcid, hpar⟩ (ih p h2)

/-- Completeness of the upward walk on a well-formed table: a subtree member
is detected with fuel at least its own id (parent chains strictly
decrease). -/
theorem descendsIn_complete (comments : List CommentRec)
    (hu : UniqueIds comments) (hpe : parentsEarlier comments = true)
    (root cid : Nat) (h : InSubtree comments root cid) :
    ∀ fuel, cid ≤ fuel → descendsIn comments fuel root cid = true := by
  unfold InSubtree at h
  induction h using Relation.ReflTransGen.head_induction_on with
  | refl =>
      intro fuel _
      cases fuel with
      | zero => simp [descendsIn]
      | succ f =>
          unfold descendsIn
          simp
  | head h' hrest ih =>
      rename_i a c
      intro fuel hfuel
      obtain ⟨rec, hrm, hrid, hrpar⟩ := h'
      have hlt : c < a := hrid ▸ parentsEarlier_lt comments hpe rec hrm c hrpar
      cases fuel with
      | zero => omega
      | succ f =>
          unfold descendsIn
          rw [Bool.or_eq_true]
          right
          rw [find?_unique_id comments a rec hu hrm hrid]
          simp only [hrpar]
          exact ih f (by omega)

/-- Claim C5: deleting a comment through the endpoint removes exactly its
reply subtree.  On a well-formed table (unique ids, parents created before
replies), a stored row survives the deletion iff it is not in the subtree of
the deleted comment (itself, its replies, replies of replies, and so on);
and when the deleted comment has no replies at all, exactly the rows with a
different id survive — the comment is deleted alone. -/
theorem delete_comment_cascade (db : DB) (cid : Nat) (u : UserRec) (db2 : DB)
    (hu : UniqueIds db.comments) (hpe : parentsEarlier db.comments = true)
    (h : delete_comment db cid u = Except.ok db2) :
    (∀ x, x ∈ db2.comments
        ↔ (x ∈ db.comments ∧ ¬ InSubtree db.comments cid x.id))
    ∧ ((∀ c ∈ db.comments, c.parent_id ≠ some cid) →
        ∀ x, x ∈ db2.comments ↔ (x ∈ db.comments ∧ x.id ≠ cid)) := by
  obtain ⟨hposts, hcoms, comment, hfound⟩ :=
    delete_comment_ok_shape db cid u db2 h
  have hmain : ∀ x, x ∈ db2.comments
      ↔ (x ∈ db.comments ∧ ¬ InSubtree db.comments cid x.id) := by
    intro x
    rw [hcoms, List.mem_filter]
    constructor
    · rintro ⟨hx, hfil⟩
      refine ⟨hx, ?_⟩
      intro hsub
      rw [descendsIn_complete db.comments hu hpe cid x.id hsub x.id le_rfl]
        at hfil
      cases hfil
    · rintro ⟨hx, hnsub⟩
      refine ⟨hx, ?_⟩
      cases hd : descendsIn db.comments x.id cid x.id with
      | false => rfl
      | true =>
          exact absurd (descendsIn_sound db.comments x.id cid x.id hd) hnsub
  refine ⟨hmain, ?_⟩
  intro hnorep x
  rw [hmain x]
  constructor
  · rintro ⟨hx, hnsub⟩
    refine ⟨hx, ?_⟩
    intro hid
    exact hnsub (hid ▸ Relation.ReflTransGen.refl)
  · rintro ⟨hx, hne⟩
    refine ⟨hx, ?_⟩
    intro hsub
    rcases Relation.ReflTransGen.cases_tail hsub with heq | ⟨c, hrt, hstep⟩
    · exact hne heq.symm
    · obtain ⟨rec, hrm, hrid, hrpar⟩ := hstep
      exact hnorep rec hrm hrpar

/-- Witness for C5: deleting the childless comment 3 of `dbTree` removes
exactly that comment — its parent comment 2 survives, comment 3 is gone. -/
theorem delete_comment_cascade_witness :
    (cTree2 ∈ dbTreeAfter3.comments
      ↔ (cTree2 ∈ dbTree.comments ∧ cTree2.id ≠ 3))
    ∧ (cTree3 ∈ dbTreeAfter3.comments
      ↔ (cTree3 ∈ dbTree.comments ∧ cTree3.id ≠ 3)) := by
  have h := delete_comment_cascade dbTree 3 u7 dbTreeAfter3
    (by decide) rfl rfl
  exact ⟨h.2 (by decide) cTree2, h.2 (by decide) cTree3⟩

/-! ### Claim C9 — blocked rows always carry a reason -/

/-- Claim C9: every write operation of the system — post/comment creation
and update with the moderation pipeline's verdict, a completed auto-reply
task, and the deletes — preserves the invariant that a stored row with
`is_blocked = true` has a non-empty `block_reason`. -/
theorem step_preserves_block_invariant (db db2 : DB) (hs : Step db db2)
    (hinv : DBInv db) : DBInv db2 := by
  obtain ⟨hposts, hcoms⟩ := hinv
  cases hs with
  | createPost title content are rd u aT aC p out dbx h =>
      obtain ⟨hp, hcomseq, hpostseq, _⟩ :=
        create_new_post_ok_shape _ _ _ _ _ _ _ _ _ _ _ h
      constructor
      · intro q hq
        rw [hpostseq] at hq
        rcases List.mem_append.mp hq with hq | hq
        · exact hposts q hq
        · have hqp := List.mem_singleton.mp hq
          subst hqp
          rw [hp]
          intro hb
          exact moderate_post_reason_nonempty aT aC hb
      · intro c hcq
        rw [hcomseq] at hcq
        exact hcoms c hcq
  | createComment post_id u content parent_id aC r h =>
      obtain ⟨post, _, _, hc, hpostseq, hcomseq, _, _⟩ :=
        create_comment_ok_shape _ _ _ _ _ _ _ _ h
      constructor
      · intro q hq
        rw [hpostseq] at hq
        exact hposts q hq
      · intro c hcq
        rw [hcomseq] at hcq
        rcases List.mem_append.mp hcq with hcq | hcq
        · exact hcoms c hcq
        · have hqc := List.mem_singleton.mp hcq
          subst hqc
          rw [hc]
          intro hb
          exact moderate_comment_reason_nonempty aC hb
  | updatePost post_id u d aT aC p2 out dbx h =>
      obtain ⟨e1, e2, e3, e4, _, _⟩ :=
        update_post_ok_shape _ _ _ _ _ _ _ _ _ h
      constructor
      · intro q hq
        rw [e3] at hq
        rcases storePost_mem_cases _ _ _ _ hq with hq | hq
        · exact hposts q hq
        · subst hq
          intro hb
          rw [e2]
          exact moderate_post_reason_nonempty aT aC (e1 ▸ hb)
      · intro c hcq
        rw [e4] at hcq
        exact hcoms c hcq
  | updateComment comment_id u new_content aC c2 out dbx h =>
      obtain ⟨f1, f2, _, f4, f5, _, _⟩ :=
        update_comment_ok_shape _ _ _ _ _ _ _ _ _ h
      constructor
      · intro q hq
        rw [f5] at hq
        exact hposts q hq
      · intro c hcq
        rw [f4] at hcq
        rcases storeComment_mem_cases _ _ _ _ hcq with hcq | hcq
        · exact hcoms c hcq
        · subst hcq
          intro hb
          rw [f2]
          exact moderate_comment_reason_nonempty aC (f1 ▸ hb)
  | autoReply reply_gen post_id comment_id dbx rc h =>
      obtain ⟨post, comment, _, _, hrc, _, hpostseq, hcomseq⟩ :=
        send_auto_reply_ok_shape _ _ _ _ _ _ h
      constructor
      · intro q hq
        rw [hpostseq] at hq
        exact hposts q hq
      · intro c hcq
        rw [hcomseq] at hcq
        rcases List.mem_append.mp hcq with hcq | hcq
        · exact hcoms c hcq
        · have hqc := List.mem_singleton.mp hcq
          subst hqc
          rw [hrc]
          intro hb
          cases hb
  | deletePost post_id u dbx h =>
      obtain ⟨hcomseq, hpostseq⟩ := delete_post_ok_shape _ _ _ _ h
      constructor
      · intro q hq
        rw [hpostseq] at hq
        exact hposts q (List.mem_of_mem_filter hq)
      · intro c hcq
        rw [hcomseq] at hcq
        exact hcoms c hcq
  | deleteComment comment_id u dbx h =>
      obtain ⟨hpostseq, hcomseq, _⟩ := delete_comment_ok_shape _ _ _ _ h
      constructor
      · intro q hq
        rw [hpostseq] at hq
        exact hposts q hq
      · intro c hcq
        rw [hcomseq] at hcq
        exact hcoms c (List.mem_of_mem_filter hcq)

/-- Witness for C9: a concrete comment-creation step on `dbAuto`, with the
AI answering a clean response, preserves the invariant. -/
theorem step_preserves_block_invariant_witness : DBInv rNice.db := by
  have hm : moderate_content_comment (fun _ => some respClean) = (false, "") := by
    unfold moderate_content_comment moderate_content_with_ai
    rw [retry_first_success (fun _ => some respClean) respClean rfl]
    simp [respClean, scanCandidates, scanRatings, safety_categories]
  have hstep : Step dbAuto rNice.db :=
    Step.createComment dbAuto 1 u7 "nice" none (fun _ => some respClean)
      rNice (by rw [hm]; rfl)
  exact step_preserves_block_invariant dbAuto rNice.db hstep (by decide)

/-! ### Claim C8 — listing endpoints and the block flag -/

/-- Claim C8: the post listing returns exactly the stored posts with
`is_blocked = false`, while the comment listing for a post returns every
stored comment of that post — blocked or not, as stored (content included). -/
theorem listing_block_filters (db : DB) (pid : Nat) :
    (∀ p : PostRec, p ∈ list_posts db ↔ (p ∈ db.posts ∧ p.is_blocked = false))
    ∧ (∀ c : CommentRec,
        c ∈ get_all_comments db pid ↔ (c ∈ db.comments ∧ c.post_id = pid)) := by
  constructor
  · intro p
    unfold list_posts
    rw [List.mem_filter]
    simp
  · intro c
    unfold get_all_comments
    rw [List.mem_filter]
    simp

end StarNavi
